import Mathlib

/-!
Verification of the restaurant ordering assistant
(`verticals/restaurant/tools.py` and `verticals/restaurant/service.py`).

The Python code is shallowly embedded: dictionaries become structures with
`Option` fields mirroring key presence, Python `int` becomes `Int`,
`float` money amounts become `ℚ`, and the in-place mutation of the shared
state dict becomes explicit state passing.  String processing is done over
`List Char` so that every definition reduces in the kernel.  Unicode-specific
behaviour (NFD accent stripping, `str.isalpha`, `\d`) is modelled on the
ASCII / Latin-1 character range the program actually handles.
-/

namespace Restaurant

/-! ## Basic character and string helpers -/

/-- ASCII lower-case letters and digits, the alphabet kept by
`_normalize_text`'s `[^a-z0-9]+` substitution. -/
def isLowerAlnum (c : Char) : Bool :=
  (('a' ≤ c) && (c ≤ 'z')) || (('0' ≤ c) && (c ≤ '9'))

/-- Model of `str.lower` on the ASCII range (Python lowercases more, but the
program's alphabets are ASCII plus the accented letters handled below). -/
def lowerChar (c : Char) : Char :=
  if 'A' ≤ c ∧ c ≤ 'Z' then Char.ofNat (c.toNat + 32) else c

/-- Model of NFD normalization + removal of combining marks
(`_strip_accents`) for the Latin-1 letters Portuguese text uses.
Applied after lowercasing, as in `_normalize_text`. -/
def stripAccentChar (c : Char) : Char :=
  if c ∈ ['á', 'à', 'â', 'ã', 'ä'] then 'a'
  else if c ∈ ['é', 'è', 'ê', 'ë'] then 'e'
  else if c ∈ ['í', 'ì', 'î', 'ï'] then 'i'
  else if c ∈ ['ó', 'ò', 'ô', 'õ', 'ö'] then 'o'
  else if c ∈ ['ú', 'ù', 'û', 'ü'] then 'u'
  else if c = 'ç' then 'c'
  else if c = 'ñ' then 'n'
  else c

/-- Split a character list into maximal runs not containing `sep`. -/
def splitRuns (sep : Char) : List Char → List (List Char)
  | [] => [[]]
  | c :: cs =>
    let rest := splitRuns sep cs
    if c = sep then [] :: rest
    else
      match rest with
      | [] => [[c]]
      | r :: rs => (c :: r) :: rs

/-- Python whitespace characters relevant here (a model of `str.isspace`
restricted to ASCII). -/
def isSpaceChar (c : Char) : Bool :=
  c = ' ' || c = '\t' || c = '\n' || c = '\r' || c = '\x0b' || c = '\x0c'

/-- Model of `str.strip`. -/
def pyStrip (s : String) : String :=
  String.mk (((s.data.dropWhile isSpaceChar).reverse.dropWhile isSpaceChar).reverse)

/-- `needle in hay` on character lists (Python `in` for strings). -/
def listContains (needle hay : List Char) : Bool :=
  needle.isPrefixOf hay ||
    match hay with
    | [] => false
    | _ :: t => listContains needle t

/-- Python substring containment `needle in hay`. -/
def strIn (needle hay : String) : Bool :=
  listContains needle.data hay.data

/-- `_normalize_text`, producing the list of word characters with
non-alphanumeric runs collapsed (lower, strip accents, `[^a-z0-9]+ → " "`,
strip). -/
def normWords (text : String) : List (List Char) :=
  let mapped := text.data.map fun c =>
    let d := stripAccentChar (lowerChar c)
    if isLowerAlnum d then d else ' '
  (splitRuns ' ' mapped).filter (· ≠ [])

/-- `_normalize_text` as a string. -/
def normalize_text (text : String) : String :=
  String.mk (List.intercalate [' '] (normWords text))

/-- `_tokenize`. -/
def tokenize (text : String) : List String :=
  (normWords text).map String.mk

/-- Parse a list of ASCII digits into a `Nat` (model of `int(...)` on a
digit string). -/
def natOfDigits (cs : List Char) : Nat :=
  cs.foldl (fun acc c => acc * 10 + (c.toNat - '0'.toNat)) 0

/-- Python `str.isdigit` for ASCII digit strings. -/
def isDigits (cs : List Char) : Bool :=
  !cs.isEmpty && cs.all Char.isDigit

/-! ## Data model (`config_schema.py`) -/

structure MenuItem where
  id : String := ""
  name : String := ""
  price : ℚ := 0
  description : String := ""
  deriving DecidableEq, Repr, Inhabited

structure PromotionRule where
  trigger : String
  suggest : String
  message : String
  deriving DecidableEq, Repr

structure RestaurantConfig where
  name : String
  whatsapp_number : String
  delivery_fee : ℚ
  opening_hours : List (String × String)
  menu : List (String × List MenuItem)
  promotions : List PromotionRule
  deriving DecidableEq, Repr

/-- `dict.get key` on an association list. -/
def dictGet (d : List (String × String)) (key : String) : Option String :=
  (d.find? (fun p => p.1 == key)).map Prod.snd

/-! ## `tools.py`: opening hours -/

/-- A time of day in seconds since midnight (`datetime.time` values compare
lexicographically by (hour, minute, second), which is this ordering). -/
abbrev TimeOfDay := Nat

def DAY_ORDER : List String :=
  ["monday", "tuesday", "wednesday", "thursday", "friday", "saturday", "sunday"]

/-- `_parse_time`: strict `%H:%M` parsing of a stripped string.  `strptime`
accepts one or two digits per field and range-checks hour and minute. -/
def parse_time (value : String) : Option TimeOfDay :=
  let s := (pyStrip value).data
  match splitRuns ':' s with
  | [h, m] =>
    if isDigits h ∧ h.length ≤ 2 ∧ isDigits m ∧ m.length ≤ 2 then
      let hv := natOfDigits h
      let mv := natOfDigits m
      if hv ≤ 23 ∧ mv ≤ 59 then some (hv * 3600 + mv * 60) else none
    else none
  | _ => none

/-- Python `s.split("-", 1)`: split at the first occurrence only. -/
def splitOnceDash (cs : List Char) : List Char × List Char :=
  match cs with
  | [] => ([], [])
  | c :: rest =>
    if c = '-' then ([], rest)
    else
      let (a, b) := splitOnceDash rest
      (c :: a, b)

/-- `_parse_intervals`. -/
def parse_intervals (hours : String) : List (TimeOfDay × TimeOfDay) :=
  ((splitRuns ',' hours.data).map fun raw =>
      let interval := pyStrip (String.mk raw)
      if interval.data = [] ∨ ¬ interval.data.contains '-' then none
      else
        let (a, b) := splitOnceDash interval.data
        match parse_time (pyStrip (String.mk a)), parse_time (pyStrip (String.mk b)) with
        | some s, some e => some (s, e)
        | _, _ => none).reduceOption

/-- Per-interval openness test used by `_is_open_for_hours`: an end ≤ start
interval crosses midnight. -/
def intervalOpen (t : TimeOfDay) (iv : TimeOfDay × TimeOfDay) : Bool :=
  if iv.2 ≤ iv.1 then (iv.1 ≤ t) || (t < iv.2)
  else (iv.1 ≤ t) && (t < iv.2)

/-- Lower-cased strip of an hours string (`hours.strip().lower()`; these
strings are ASCII). -/
def hoursNormalized (hours : String) : String :=
  String.mk ((pyStrip hours).data.map lowerChar)

/-- `_is_open_for_hours`. -/
def is_open_for_hours (hours : String) (now_time : TimeOfDay) : Bool :=
  let normalized := hoursNormalized hours
  if normalized = "" ∨ normalized = "closed" ∨ normalized = "fechado" then false
  else (parse_intervals hours).any (intervalOpen now_time)

/-- `_is_open_from_prev_day`. -/
def is_open_from_prev_day (hours : String) (now_time : TimeOfDay) : Bool :=
  if hours = "" then false
  else (parse_intervals hours).any fun iv => (iv.2 ≤ iv.1) && (now_time < iv.2)

/-- `_previous_day` (Python `DAY_ORDER[index - 1]`, where index 0 wraps to
the last element). -/
def previous_day (day_key : String) : Option String :=
  match DAY_ORDER.indexOf? day_key with
  | none => none
  | some i => DAY_ORDER.get? ((i + DAY_ORDER.length - 1) % DAY_ORDER.length)

/-- The pieces of `datetime.now()` the program reads: the lower-cased
English `%A` day name and the time of day. -/
structure Now where
  day : String
  timeOfDay : TimeOfDay
  deriving DecidableEq, Repr

/-- `is_open`. -/
def is_open (config : RestaurantConfig) (now : Now) : Bool :=
  let hours_today := (dictGet config.opening_hours now.day).getD ""
  if is_open_for_hours hours_today now.timeOfDay then true
  else
    match previous_day now.day with
    | none => false
    | some prev =>
      is_open_from_prev_day ((dictGet config.opening_hours prev).getD "") now.timeOfDay

/-! ## `tools.py`: catalog lookup and totals -/

/-- `find_menu_item`: first item with a matching id, scanning categories in
order. -/
def find_menu_item (config : RestaurantConfig) (item_id : String) : Option MenuItem :=
  (config.menu.map Prod.snd).flatten.find? (fun item => item.id == item_id)

/-- A cart entry dict.  `id` is `entry.get("id")`, and the two quantity keys
mirror `entry.get("quantity", entry.get("qty", 1))`.  (Values are modelled
as integers; a non-integer value makes `int(...)` raise, which
`calculate_total` catches and treats as 1 — carts produced by the service
always store integers.) -/
structure CartEntry where
  id : Option String
  quantity : Option Int
  qty : Option Int
  deriving DecidableEq, Repr

/-- Python truthiness of `entry.get("id")`: present and non-empty. -/
def truthyId (e : CartEntry) : Bool :=
  match e.id with
  | some s => s ≠ ""
  | none => false

/-- `entry.get("quantity", entry.get("qty", 1))`. -/
def rawQty (e : CartEntry) : Int :=
  ((e.quantity).orElse (fun _ => e.qty)).getD 1

/-- `calculate_total`. -/
def calculate_total (cart : List CartEntry) (config : RestaurantConfig) : ℚ :=
  cart.foldl
    (fun total e =>
      if ¬ truthyId e then total
      else
        match find_menu_item config ((e.id).getD "") with
        | none => total
        | some item => total + item.price * ((max (rawQty e) 1 : Int) : ℚ))
    0
  + config.delivery_fee

/-! ## `service.py`: cart manager -/

/-- The loop of `CartManager.add` (after the clamp): increment the first
entry with the same id, else append a fresh `{"id": ..., "quantity": ...}`. -/
def cart_add_go (item_id : String) (q : Int) : List CartEntry → List CartEntry
  | [] => [{ id := some item_id, quantity := some q, qty := none }]
  | e :: rest =>
    if e.id = some item_id then
      { e with quantity := some ((e.quantity).getD 1 + q) } :: rest
    else e :: cart_add_go item_id q rest

/-- `CartManager.add`: clamp the quantity to ≥ 1, then run the loop. -/
def cart_add (cart : List CartEntry) (item_id : String) (quantity : Int) : List CartEntry :=
  cart_add_go item_id (max quantity 1) cart

/-- The loop of `CartManager.remove` (after the clamp): act on the first
entry with the same id; delete it when the removed quantity reaches the
current one, else decrement.  Also returns whether an entry was found. -/
def cart_remove_go (item_id : String) (q : Int) : List CartEntry → List CartEntry × Bool
  | [] => ([], false)
  | e :: rest =>
    if e.id = some item_id then
      let current := (e.quantity).getD 1
      if q ≥ current then (rest, true)
      else ({ e with quantity := some (current - q) } :: rest, true)
    else
      let r := cart_remove_go item_id q rest
      (e :: r.1, r.2)

/-- `CartManager.remove`. -/
def cart_remove (cart : List CartEntry) (item_id : String) (quantity : Int) :
    List CartEntry × Bool :=
  cart_remove_go item_id (max quantity 1) cart

/-- `CartManager.has_items`. -/
def cart_has_items (cart : List CartEntry) : Bool :=
  cart.any truthyId

/-- `CartManager.items`: resolvable entries with their clamped quantities
(this path reads only the `"quantity"` key). -/
def cart_items (config : RestaurantConfig) (cart : List CartEntry) :
    List (MenuItem × Int) :=
  (cart.map fun e =>
    if ¬ truthyId e then none
    else
      match find_menu_item config ((e.id).getD "") with
      | none => none
      | some item => some (item, max ((e.quantity).getD 1) 1)).reduceOption

/-! ## `service.py`: keyword sets and matching -/

def MENU_KEYWORDS : List String := ["menu", "cardapio"]
def PROMO_KEYWORDS : List String := ["promo", "promocao", "promocoes"]
def FINISH_KEYWORDS : List String := ["finalizar", "fechar", "encerrar", "checkout"]
def CONFIRM_KEYWORDS : List String := ["sim", "confirmar", "confirmo", "ok", "pode"]
def EDIT_KEYWORDS : List String := ["editar", "mudar", "alterar", "nao", "cancelar", "voltar"]
def REMOVE_KEYWORDS : List String := ["remover", "tirar", "excluir", "deletar"]

def NUMBER_WORDS : List (String × Int) :=
  [("um", 1), ("uma", 1), ("dois", 2), ("duas", 2), ("tres", 3), ("quatro", 4),
   ("cinco", 5), ("seis", 6), ("sete", 7), ("oito", 8), ("nove", 9), ("dez", 10),
   ("onze", 11), ("doze", 12)]

def GENERIC_ITEM_TOKENS : List String :=
  ["pizza", "pizzas", "bebida", "bebidas", "lanche", "lanches", "combo", "combos",
   "sabor", "sabores", "tamanho", "media", "grande"]

/-- `_singularize`: drop a trailing "s" from tokens longer than 3. -/
def singularize (token : String) : String :=
  if token.data.length > 3 ∧ token.data.getLast? = some 's' then
    String.mk token.data.dropLast
  else token

/-- `_token_matches_item`. -/
def token_matches_item (token item_token : String) : Bool :=
  let t := singularize token
  let it := singularize item_token
  (t == it) ||
  (t.data.length > 3 && t.data.isPrefixOf it.data) ||
  (it.data.length > 3 && it.data.isPrefixOf t.data)

structure IndexedItem where
  item : MenuItem
  category : String
  id_norm : String
  name_norm : String
  tokens : List String
  deriving DecidableEq, Repr

/-- `_build_item_index`. -/
def build_item_index (config : RestaurantConfig) : List IndexedItem :=
  (config.menu.map fun cat =>
    cat.2.map fun item =>
      { item := item
        category := cat.1
        id_norm := normalize_text item.id
        name_norm := normalize_text item.name
        tokens := (tokenize item.name).filter (· ∉ GENERIC_ITEM_TOKENS) }).flatten

/-- The number of utterance tokens that fuzzily match some token of the
indexed item (the `matches` counter of `_match_item`). -/
def matchScore (tokens : List String) (indexed : IndexedItem) : Nat :=
  (tokens.filter fun token =>
    indexed.tokens.any fun item_token => token_matches_item token item_token).length

/-- The token-overlap tier of `_match_item`: keep the best strictly
improving qualifying score. -/
def matchTokenLoop (tokens : List String) :
    List IndexedItem → Nat → Option IndexedItem → Option IndexedItem
  | [], _, best => best
  | indexed :: rest, best_score, best =>
    if indexed.tokens.isEmpty then matchTokenLoop tokens rest best_score best
    else
      let m := matchScore tokens indexed
      if m ≥ max 1 (min 2 indexed.tokens.length) ∧ m > best_score then
        matchTokenLoop tokens rest m (some indexed)
      else matchTokenLoop tokens rest best_score best

/-- `_match_item`: id substring tier, then name substring tier, then the
token-overlap tier. -/
def match_item (text : String) (indexed_items : List IndexedItem) : Option IndexedItem :=
  let normalized_text := normalize_text text
  let tokens := tokenize text
  match indexed_items.find? (fun i => i.id_norm ≠ "" && strIn i.id_norm normalized_text) with
  | some i => some i
  | none =>
    match indexed_items.find? (fun i => i.name_norm ≠ "" && strIn i.name_norm normalized_text) with
    | some i => some i
    | none => matchTokenLoop tokens indexed_items 0 none

/-! ## `service.py`: quantity extraction -/

/-- `_quantity_from_tokens`: first token that is all digits (clamped to
≥ 1) or whose singularized form is a number word. -/
def quantity_from_tokens : List String → Option Int
  | [] => none
  | token :: rest =>
    if isDigits token.data then some (max (natOfDigits token.data : Int) 1)
    else
      match NUMBER_WORDS.find? (fun p => p.1 == singularize token) with
      | some p => some p.2
      | none => quantity_from_tokens rest

/-- The `\b(\d+)\s*x\b` search of `_extract_quantity`, interpreted over the
normalized text (single-space-separated word tokens): either a token of the
form digits++"x", or an all-digit token immediately followed by the token
"x".  Returns the first digit group in token order. -/
def digitsXSearch : List String → Option Int
  | [] => none
  | token :: rest =>
    let cs := token.data
    if cs.length ≥ 2 ∧ cs.getLast? = some 'x' ∧ isDigits cs.dropLast then
      some (max (natOfDigits cs.dropLast : Int) 1)
    else if isDigits cs ∧ rest.head? = some "x" then
      some (max (natOfDigits cs : Int) 1)
    else digitsXSearch rest

/-- The scan of `_extract_quantity` over token positions: at each token
matching one of the item's tokens (or its normalized id), try the window of
the two preceding tokens. -/
def quantityWindowScan (tokens : List String) (item_tokens : List String) : Option Int :=
  let rec go (i : Nat) : List String → Option Int
    | [] => none
    | token :: rest =>
      if item_tokens.any (fun it => it ≠ "" && token_matches_item token it) then
        match quantity_from_tokens ((tokens.take i).drop (i - 2)) with
        | some q => some q
        | none => go (i + 1) rest
      else go (i + 1) rest
  go 0 tokens

/-- `_extract_quantity`. -/
def extract_quantity (text : String) (indexed : Option IndexedItem) : Int :=
  let tokens := tokenize text
  if tokens.isEmpty then 1
  else
    let windowHit :=
      match indexed with
      | none => none
      | some ind => quantityWindowScan tokens (ind.tokens ++ [ind.id_norm])
    match windowHit with
    | some q => q
    | none =>
      match digitsXSearch (tokenize text) with
      | some q => q
      | none => (quantity_from_tokens tokens).getD 1

/-! ## `service.py`: phone, name and address extraction -/

/-- `re.sub(r"\D+", "", value)` (ASCII digits). -/
def digitsOf (value : String) : String :=
  String.mk (value.data.filter Char.isDigit)

/-- `_looks_like_phone`. -/
def looks_like_phone (value : String) : Bool :=
  10 ≤ (digitsOf value).length && (digitsOf value).length ≤ 13

/-- `_normalize_phone`. -/
def normalize_phone (value : String) : Option String :=
  if 10 ≤ (digitsOf value).length ∧ (digitsOf value).length ≤ 13 then
    some (digitsOf value)
  else none

/-- Python `str.title` on a normalized (lower-case, single-spaced) string:
upper-case the first letter of each word. -/
def titleWords (ws : List (List Char)) : String :=
  String.mk (List.intercalate [' ']
    (ws.map fun w =>
      match w with
      | [] => []
      | c :: rest => (if 'a' ≤ c ∧ c ≤ 'z' then Char.ofNat (c.toNat - 32) else c) :: rest))

/-- `_extract_name`: search the normalized text for
`\b(meu nome e|me chamo|sou)\s+(.+)`; on the single-spaced normalized text
this matches at the first token position starting one of the three phrases
with at least one token following.  The captured tail is title-cased. -/
def extract_name (text : String) : Option String :=
  let rec go : List (List Char) → Option String
    | [] => none
    | w :: rest =>
      if w = ['m', 'e', 'u'] ∧ rest.head? = some ['n', 'o', 'm', 'e'] ∧
          (rest.drop 1).head? = some ['e'] ∧ (rest.drop 2) ≠ [] then
        some (titleWords (rest.drop 2))
      else if w = ['m', 'e'] ∧ rest.head? = some ['c', 'h', 'a', 'm', 'o'] ∧
          (rest.drop 1) ≠ [] then
        some (titleWords (rest.drop 1))
      else if w = ['s', 'o', 'u'] ∧ rest ≠ [] then
        some (titleWords rest)
      else go rest
  go (normWords text)

/-- The tail matcher of `_extract_address`'s regex after the literal
`endereco`: `\s*(e|e|:)?\s+(.+)` with backtracking, case-insensitively. -/
def addressTail (r : List Char) : Option (List Char) :=
  let ws := r.takeWhile isSpaceChar
  let r1 := r.drop ws.length
  match r1 with
  | [] => none
  | c :: rest =>
    if c = 'e' ∨ c = 'E' ∨ c = ':' then
      let ws2 := rest.takeWhile isSpaceChar
      if ws2.length > 0 ∧ rest.drop ws2.length ≠ [] then some (rest.drop ws2.length)
      else if ws.length > 0 then some r1
      else none
    else if ws.length > 0 then some r1
    else none

/-- Word characters for the regex `\b` boundary. -/
def isWordChar (c : Char) : Bool :=
  (('a' ≤ c) && (c ≤ 'z')) || (('A' ≤ c) && (c ≤ 'Z')) ||
  (('0' ≤ c) && (c ≤ '9')) || c = '_'

/-- `_extract_address`: search the raw text case-insensitively for the word
`endereco` preceded by a non-word character and followed by the tail
pattern; the captured group is stripped. -/
def extract_address (text : String) : Option String :=
  let rec go (prev : Option Char) (cs : List Char) : Option String :=
    match cs with
    | [] => none
    | c :: rest =>
      let boundary : Bool := match prev with
        | none => true
        | some p => ! isWordChar p
      if boundary && (['e','n','d','e','r','e','c','o'].isPrefixOf
          ((c :: rest).map (fun d => lowerChar d))) then
        match addressTail ((c :: rest).drop 8) with
        | some tail => some (pyStrip (String.mk tail))
        | none => go (some c) rest
      else go (some c) rest
  go none text.data

/-- `_is_valid_name` (`str.isalpha` modelled on ASCII letters, which covers
the names the tests use). -/
def is_valid_name (name : String) : Bool :=
  let cleaned := pyStrip name
  cleaned.data.length ≥ 2 &&
    cleaned.data.any (fun c => (('a' ≤ c) && (c ≤ 'z')) || (('A' ≤ c) && (c ≤ 'Z')))

/-- `_is_valid_address`. -/
def is_valid_address (address : String) : Bool :=
  (pyStrip address).data.length ≥ 6

/-! ## `service.py`: intent parsing -/

inductive IntentType where
  | show_menu | show_promos | finish | confirm | edit | add_item | remove_item | unknown
  deriving DecidableEq, Repr

structure Intent where
  type : IntentType
  item : Option MenuItem := none
  quantity : Int := 1
  deriving DecidableEq, Repr

/-- `parse_intent`. -/
def parse_intent (message : String) (indexed_items : List IndexedItem) : Intent :=
  let text := normalize_text message
  if MENU_KEYWORDS.any (fun k => strIn k text) then { type := .show_menu }
  else if PROMO_KEYWORDS.any (fun k => strIn k text) then { type := .show_promos }
  else if FINISH_KEYWORDS.any (fun k => strIn k text) then { type := .finish }
  else if CONFIRM_KEYWORDS.any (fun k => strIn k text) then { type := .confirm }
  else if EDIT_KEYWORDS.any (fun k => strIn k text) then { type := .edit }
  else
    match match_item message indexed_items with
    | some indexed =>
      let quantity := extract_quantity message (some indexed)
      if REMOVE_KEYWORDS.any (fun k => strIn k text) then
        { type := .remove_item, item := some indexed.item, quantity := quantity }
      else { type := .add_item, item := some indexed.item, quantity := quantity }
    | none => { type := .unknown }

/-! ## `service.py`: reply text construction -/

/-- Model of Python `f"{x:.2f}"` for the (non-negative, two-decimal) money
amounts the program prints: round to cents and render with two decimals. -/
def formatMoney (q : ℚ) : String :=
  let c : ℤ := ⌊q * 100 + 1 / 2⌋
  let n : ℕ := c.toNat
  let frac := n % 100
  toString (n / 100) ++ "." ++ (if frac < 10 then "0" else "") ++ toString frac

/-- ASCII upper-casing (`str.upper` on the catalog's category names). -/
def upperStr (s : String) : String :=
  String.mk (s.data.map fun c => if 'a' ≤ c ∧ c ≤ 'z' then Char.ofNat (c.toNat - 32) else c)

/-- ASCII lower-casing of a string. -/
def lowerStr (s : String) : String :=
  String.mk (s.data.map lowerChar)

/-- `_menu_category_emoji`. -/
def menu_category_emoji (category : String) : String :=
  let label := lowerStr category
  if strIn "pizza" label then "🍕"
  else if strIn "bebida" label || strIn "drink" label || strIn "refri" label ||
      strIn "refrigerante" label then "🥤"
  else if strIn "sobremesa" label || strIn "doce" label then "🍰"
  else if strIn "combo" label then "🎁"
  else "📋"

/-- `_menu_text`. -/
def menu_text (config : RestaurantConfig) : String :=
  let lines := ["Cardapio:"] ++
    (config.menu.map fun cat =>
      ["\n" ++ menu_category_emoji cat.1 ++ " " ++ upperStr cat.1 ++ ":"] ++
        cat.2.map fun item =>
          let description := if item.description ≠ "" then " — " ++ item.description else ""
          "• " ++ item.id ++ " — " ++ item.name ++ " (R$ " ++ formatMoney item.price ++ ")"
            ++ description).flatten
  String.intercalate "\n" lines

/-- The promotions listing of `_handle_general`. -/
def promos_text (config : RestaurantConfig) : String :=
  if ¬ config.promotions.isEmpty then
    String.intercalate "\n"
      ("Promocoes de hoje:" :: config.promotions.map fun promo => "• " ++ promo.message)
  else "No momento nao temos promocoes ativas."

/-- `CartManager.summary_text`. -/
def summary_text (config : RestaurantConfig) (cart : List CartEntry) : String :=
  String.intercalate "\n"
    (["Resumo do pedido:"] ++
      ((cart_items config cart).map fun pair =>
        "• " ++ toString pair.2 ++ "x " ++ pair.1.name ++ " — R$ "
          ++ formatMoney (pair.1.price * (pair.2 : ℚ))) ++
      ["Taxa de entrega: R$ " ++ formatMoney config.delivery_fee,
       "Total: R$ " ++ formatMoney (calculate_total cart config)])

/-- `_is_beverage_category`. -/
def is_beverage_category (category : String) : Bool :=
  let label := lowerStr category
  strIn "bebida" label || strIn "drink" label || strIn "refri" label ||
    strIn "refrigerante" label

/-- `CartManager.has_beverage`. -/
def cart_has_beverage (cart : List CartEntry) (item_index : List IndexedItem) : Bool :=
  cart.any fun e =>
    truthyId e && item_index.any fun indexed =>
      indexed.item.id == (e.id).getD "" && is_beverage_category indexed.category

/-- `_find_beverage_item`. -/
def find_beverage_item (item_index : List IndexedItem) : Option MenuItem :=
  ((item_index.find? fun indexed => is_beverage_category indexed.category).map (·.item))

/-- `_pretty_hours`. -/
def pretty_hours (hours : String) : String :=
  let intervals := ((splitRuns ',' hours.data).map fun seg => pyStrip (String.mk seg)).filter
    (· ≠ "")
  String.intercalate " e "
    (intervals.map fun interval =>
      if interval.data.contains '-' then
        let (a, b) := splitOnceDash interval.data
        pyStrip (String.mk a) ++ " as " ++ pyStrip (String.mk b)
      else interval)

/-- `_closed_message`. -/
def closed_message (config : RestaurantConfig) (now : Now) : String :=
  match dictGet config.opening_hours now.day with
  | some hours =>
    if hours ≠ "" then
      "Estamos fechados agora. Nosso horario de hoje e " ++ pretty_hours hours ++ "."
    else "Estamos fechados agora."
  | none => "Estamos fechados agora."

/-- `_response_with_notice`. -/
def response_with_notice (notice : Option String) (text : String) : String :=
  match notice with
  | some n => if n = "" then text else n ++ "\n\n" ++ text
  | none => text

/-! ## `service.py`: conversation state -/

inductive Step where
  | ordering | confirmation | awaiting_name | awaiting_address
  deriving DecidableEq, Repr

/-- `ConversationStep.value`. -/
def Step.value : Step → String
  | .ordering => "ordering"
  | .confirmation => "confirmation"
  | .awaiting_name => "awaiting_name"
  | .awaiting_address => "awaiting_address"

/-- `ConversationStep(value)`, `none` modelling the `ValueError` case. -/
def stepOfValue (s : String) : Option Step :=
  if s = "ordering" then some .ordering
  else if s = "confirmation" then some .confirmation
  else if s = "awaiting_name" then some .awaiting_name
  else if s = "awaiting_address" then some .awaiting_address
  else none

/-- The `customer_info` dict. -/
structure CustomerInfo where
  name : Option String := none
  address : Option String := none
  phone : Option String := none
  payment_method : Option String := none
  notes : Option String := none
  deriving DecidableEq, Repr

/-- The conversation-state dict; each field mirrors the presence and value
of the corresponding key. -/
structure ConvState where
  step : Option String := none
  cart : Option (List CartEntry) := none
  customer_info : Option CustomerInfo := none
  awaiting_confirmation : Option Bool := none
  awaiting_info : Option String := none
  confirmed : Option Bool := none
  pending_confirmation : Option Bool := none
  deriving DecidableEq, Repr

def truthyStr (o : Option String) : Bool :=
  match o with
  | some s => s ≠ ""
  | none => false

def truthyB (o : Option Bool) : Bool := o.getD false

/-- `_coerce_step`. -/
def coerce_step (state : ConvState) : Step :=
  if truthyStr state.step then
    match stepOfValue ((state.step).getD "") with
    | some s => s
    | none => .ordering
  else if truthyB state.awaiting_confirmation then .confirmation
  else if state.awaiting_info = some "name" then .awaiting_name
  else if state.awaiting_info = some "address" then .awaiting_address
  else .ordering

/-- The state mutations performed by `ConversationManager.__init__`:
default the cart and customer info, write the coerced step back, and pop
the legacy flags. -/
def canonicalize (state : ConvState) : ConvState :=
  { step := some (coerce_step state).value
    cart := some ((state.cart).getD [])
    customer_info := some ((state.customer_info).getD {})
    awaiting_confirmation := none
    awaiting_info := none
    confirmed := none
    pending_confirmation := state.pending_confirmation }

def canonCart (state : ConvState) : List CartEntry := (state.cart).getD []

def canonCI (state : ConvState) : CustomerInfo := (state.customer_info).getD {}

def setStep (state : ConvState) (s : Step) : ConvState :=
  { state with step := some s.value }

def setCart (state : ConvState) (cart : List CartEntry) : ConvState :=
  { state with cart := some cart }

def setCI (state : ConvState) (ci : CustomerInfo) : ConvState :=
  { state with customer_info := some ci }

def setPending (state : ConvState) : ConvState :=
  { state with pending_confirmation := some true }

def popPending (state : ConvState) : ConvState :=
  { state with pending_confirmation := none }

/-- A handler result: reply text, updated state, optional WhatsApp link. -/
structure HRes where
  text : String
  state : ConvState
  link : Option String := none
  deriving DecidableEq, Repr

/-! ## `tools.py`: checkout formatter -/

/-- UTF-8 encoding of a code point. -/
def charUtf8 (c : Char) : List Nat :=
  let n := c.toNat
  if n < 0x80 then [n]
  else if n < 0x800 then [0xC0 + n / 64, 0x80 + n % 64]
  else if n < 0x10000 then [0xE0 + n / 4096, 0x80 + n / 64 % 64, 0x80 + n % 64]
  else [0xF0 + n / 262144, 0x80 + n / 4096 % 64, 0x80 + n / 64 % 64, 0x80 + n % 64]

def hexDigit (n : Nat) : Char :=
  if n < 10 then Char.ofNat ('0'.toNat + n) else Char.ofNat ('A'.toNat + n - 10)

/-- `urllib.parse.quote` with its default safe set (`/` plus the always-safe
characters `[A-Za-z0-9_.~-]`). -/
def urlQuote (s : String) : String :=
  String.mk ((s.data.map fun c =>
    if (('a' ≤ c) && (c ≤ 'z')) || (('A' ≤ c) && (c ≤ 'Z')) ||
        (('0' ≤ c) && (c ≤ '9')) || c = '_' || c = '.' || c = '~' || c = '-' || c = '/' then
      [c]
    else
      (charUtf8 c).map (fun b => ['%', hexDigit (b / 16), hexDigit (b % 16)]) |>.flatten
    ).flatten)

/-- `build_whatsapp_message`. -/
def build_whatsapp_message (config : RestaurantConfig) (cart : List CartEntry)
    (customer_info : CustomerInfo) : String :=
  let headLines :=
    ["Pedido - " ++ config.name] ++
    (if truthyStr customer_info.name then ["Cliente: " ++ (customer_info.name).getD ""] else []) ++
    (if truthyStr customer_info.phone then ["Telefone: " ++ (customer_info.phone).getD ""] else []) ++
    (if truthyStr customer_info.address then ["Endereco: " ++ (customer_info.address).getD ""] else []) ++
    (if truthyStr customer_info.payment_method then
      ["Pagamento: " ++ (customer_info.payment_method).getD ""] else [])
  let itemLines :=
    (cart.map fun e =>
      if ¬ truthyId e then none
      else
        match find_menu_item config ((e.id).getD "") with
        | none => none
        | some item =>
          let quantity := max (rawQty e) 1
          some (toString quantity ++ "x " ++ item.name ++ " (R$ " ++ formatMoney item.price
            ++ ") = R$ " ++ formatMoney (item.price * (quantity : ℚ)))).reduceOption
  let tailLines :=
    ["Taxa de entrega: R$ " ++ formatMoney config.delivery_fee,
     "Total: R$ " ++ formatMoney (calculate_total cart config)] ++
    (if truthyStr customer_info.notes then
      ["Observacoes: " ++ (customer_info.notes).getD ""] else [])
  String.intercalate "\n" (headLines ++ ["Itens:"] ++ itemLines ++ tailLines)

/-! ## `service.py`: dialogue state machine -/

def GENERIC_HELP_TEXT : String :=
  "Consigo te ajudar com o cardapio, adicionar itens ou finalizar o pedido. Diga \x27menu\x27 para ver os itens."

def CONFIRMATION_INSTRUCTION_TEXT : String :=
  "Para finalizar, responda \x27sim\x27. Para mudar o pedido, diga \x27editar\x27."

def PHONE_REPROMPT_TEXT : String := "Telefone invalido. Pode enviar novamente?"

/-- `_build_response`. -/
def build_response (notice : Option String) (state : ConvState) (text : String)
    (link : Option String := none) : HRes :=
  { text := response_with_notice notice text, state := state, link := link }

/-- `_missing_info_prompt`. -/
def missing_info_prompt (customer_info : CustomerInfo) : String :=
  if ¬ truthyStr customer_info.name then "Antes de finalizar, preciso do seu nome."
  else if ¬ truthyStr customer_info.address then "Antes de finalizar, preciso do seu endereco."
  else ""

/-- `ConversationManager._handle_general`.  The state is the canonicalized
conversation state; the cart is read and written through it. -/
def handle_general (config : RestaurantConfig) (item_index : List IndexedItem)
    (notice : Option String) (state : ConvState) (intent : Intent) : HRes :=
  if intent.type = .show_menu then build_response notice state (menu_text config)
  else if intent.type = .show_promos then build_response notice state (promos_text config)
  else if intent.type = .add_item ∧ (intent.item).isSome then
    let item := (intent.item).getD default
    let cart := cart_add (canonCart state) item.id intent.quantity
    let state := setCart state cart
    let total := calculate_total cart config
    let response_lines :=
      ["Adicionado: " ++ toString intent.quantity ++ "x " ++ item.name ++ ".",
       "Total parcial (com entrega): R$ " ++ formatMoney total ++ "."] ++
      (config.promotions.filter (fun promo => promo.trigger == item.id)).map (·.message) ++
      (if ¬ cart_has_beverage cart item_index then
        match find_beverage_item item_index with
        | some beverage =>
          ["Quer adicionar " ++ beverage.name ++ " por R$ " ++ formatMoney beverage.price
            ++ " para completar seu pedido?"]
        | none => []
      else []) ++
      ["Se quiser finalizar, diga \x27finalizar\x27."]
    build_response notice state (String.intercalate " " response_lines)
  else if intent.type = .remove_item ∧ (intent.item).isSome then
    let item := (intent.item).getD default
    let result := cart_remove (canonCart state) item.id intent.quantity
    let state := setCart state result.1
    if ¬ result.2 then build_response notice state "Nao encontrei esse item no seu carrinho."
    else if ¬ cart_has_items result.1 then
      build_response notice state "Removi o item. Seu carrinho esta vazio."
    else
      build_response notice state
        ("Removi " ++ toString intent.quantity ++ "x " ++ item.name ++ ". Total atual: R$ "
          ++ formatMoney (calculate_total result.1 config) ++ ".")
  else if intent.type = .finish then
    if ¬ cart_has_items (canonCart state) then
      build_response notice state
        "Seu carrinho esta vazio. Escolha um item do cardapio para continuar."
    else
      let state := setStep state .confirmation
      build_response notice state
        (summary_text config (canonCart state) ++ "\n\nVoce confirma? (sim/nao)")
  else if intent.type = .confirm then
    build_response notice state "Se deseja finalizar, diga \x27finalizar\x27 e eu resumo o pedido."
  else build_response notice state GENERIC_HELP_TEXT

/-- `ConversationManager._finalize_order`. -/
def finalize_order (config : RestaurantConfig) (notice : Option String)
    (state : ConvState) : HRes :=
  if ¬ cart_has_items (canonCart state) then
    build_response notice (setStep state .ordering)
      "Seu carrinho esta vazio. Escolha um item do cardapio."
  else if ¬ truthyStr (canonCI state).name then
    build_response notice (setPending (setStep state .awaiting_name)) "Qual seu nome?"
  else if ¬ truthyStr (canonCI state).address then
    build_response notice (setPending (setStep state .awaiting_address))
      "Qual o endereco para entrega?"
  else if truthyStr (canonCI state).phone ∧
      normalize_phone (((canonCI state).phone).getD "") = none then
    build_response notice state PHONE_REPROMPT_TEXT
  else
    let wa_message := build_whatsapp_message config (canonCart state) (canonCI state)
    let wa_link := "https://wa.me/" ++ config.whatsapp_number ++ "?text=" ++ urlQuote wa_message
    build_response notice (popPending (setStep state .ordering))
      "Pedido confirmado! Clique no link para enviar via WhatsApp." (some wa_link)

/-- `ConversationManager._handle_confirmation`. -/
def handle_confirmation (config : RestaurantConfig) (item_index : List IndexedItem)
    (notice : Option String) (state : ConvState) (intent : Intent) : HRes :=
  if intent.type = .confirm then finalize_order config notice state
  else if intent.type = .edit then
    build_response notice (setStep state .ordering)
      "Sem problemas. Diga o item que deseja adicionar ou remover."
  else if intent.type = .add_item ∨ intent.type = .remove_item then
    let response := handle_general config item_index notice state intent
    let summary := summary_text config (canonCart response.state) ++ "\n\nVoce confirma? (sim/nao)"
    { response with text := response.text ++ "\n\n" ++ summary }
  else build_response notice state CONFIRMATION_INSTRUCTION_TEXT

/-- `ConversationManager._handle_customer_info`. -/
def handle_customer_info (config : RestaurantConfig) (item_index : List IndexedItem)
    (notice : Option String) (step : Step) (state : ConvState) (intent : Intent)
    (message : String) : HRes :=
  if intent.type = .show_menu ∨ intent.type = .show_promos ∨
      intent.type = .add_item ∨ intent.type = .remove_item then
    let response := handle_general config item_index notice state intent
    let reminder := missing_info_prompt (canonCI response.state)
    { response with text := response.text ++ "\n\n" ++ reminder }
  else if intent.type = .confirm then
    build_response notice state "Antes de confirmar, preciso do seu nome e endereco."
  else if step = .awaiting_name then
    let name := match extract_name message with
      | some n => if n ≠ "" then n else pyStrip message
      | none => pyStrip message
    if ¬ is_valid_name name then
      build_response notice state "Nao consegui entender seu nome. Pode repetir?"
    else
      let state := setStep (setCI state { canonCI state with name := some name }) .awaiting_address
      build_response notice state "Obrigado! Qual o endereco para entrega?"
  else
    let address := match extract_address message with
      | some a => if a ≠ "" then a else pyStrip message
      | none => pyStrip message
    if ¬ is_valid_address address then
      build_response notice state "Endereco invalido. Pode enviar novamente?"
    else
      let state := setStep (setCI state { canonCI state with address := some address }) .ordering
      if truthyB state.pending_confirmation then
        finalize_order config notice (popPending state)
      else build_response notice state "Perfeito! Posso ajudar com mais algum item?"

/-- The closed notice computed by `ConversationManager.__init__`: `None`
when the restaurant is open. -/
def closed_notice (config : RestaurantConfig) (now : Now) : Option String :=
  if is_open config now then none else some (closed_message config now)

/-- `ConversationManager.__init__` followed by `handle_message`. -/
def handle_message (config : RestaurantConfig) (now : Now) (message : String)
    (state : ConvState) : HRes :=
  let item_index := build_item_index config
  let step := coerce_step state
  let state := canonicalize state
  let notice := closed_notice config now
  let intent := parse_intent message item_index
  if step = .awaiting_name ∨ step = .awaiting_address then
    handle_customer_info config item_index notice step state intent message
  else if step = .confirmation then
    handle_confirmation config item_index notice state intent
  else handle_general config item_index notice state intent

/-- `RestaurantService.process_message` (with the incoming `state` dict
already non-`None`; the transport layer replaces `None` by `{}`). -/
def process_message (config : RestaurantConfig) (now : Now) (message : String)
    (state : ConvState) : HRes :=
  let state :=
    if message ≠ "" ∧ looks_like_phone message then
      match normalize_phone message with
      | some phone =>
        { state with customer_info := some { (state.customer_info).getD {} with phone := some phone } }
      | none => state
    else state
  handle_message config now message state

/-! ## Spec-side definitions (used to compare the code with the claims) -/

/-- The per-entry contribution to the total as `calculate_total` actually
computes it: resolvable entries contribute price × quantity clamped to ≥ 1,
everything else contributes 0. -/
def resolvedLineValue (config : RestaurantConfig) (e : CartEntry) : ℚ :=
  if truthyId e then
    match find_menu_item config ((e.id).getD "") with
    | none => 0
    | some item => item.price * ((max (rawQty e) 1 : Int) : ℚ)
  else 0

/-- Modelled from the claim's words (C1): the sum of `item.price × quantity`
over exactly those cart entries whose item id resolves in the catalog, plus
the flat delivery fee — with the entry's stored quantity, not a clamped
one. -/
def spec_total_unclamped (cart : List CartEntry) (config : RestaurantConfig) : ℚ :=
  (cart.map fun e =>
    match e.id with
    | none => 0
    | some id =>
      match find_menu_item config id with
      | none => 0
      | some item => item.price * ((rawQty e : Int) : ℚ)).sum
  + config.delivery_fee

/-- Qualification in the token-overlap tier: non-empty significant tokens
and a score meeting the `max 1 (min 2 ·)` threshold. -/
def tierQualifies (tokens : List String) (indexed : IndexedItem) : Prop :=
  indexed.tokens ≠ [] ∧ max 1 (min 2 indexed.tokens.length) ≤ matchScore tokens indexed

instance (tokens : List String) (indexed : IndexedItem) :
    Decidable (tierQualifies tokens indexed) := by
  unfold tierQualifies; infer_instance

/-- A state in canonical shape: the step key holds one of the four enum
strings, the legacy keys are absent, and the cart and customer-info keys
are present. -/
def stateCanonical (st : ConvState) : Prop :=
  (st.step = some "ordering" ∨ st.step = some "confirmation" ∨
    st.step = some "awaiting_name" ∨ st.step = some "awaiting_address") ∧
  (st.cart).isSome = true ∧
  (st.customer_info).isSome = true ∧
  st.awaiting_confirmation = none ∧
  st.awaiting_info = none ∧
  st.confirmed = none

/-! ## Concrete instances used by counterexamples and witnesses -/

/-- A small catalog exercising every component: one pizza with a promotion
trigger, one beverage, and a midnight-crossing Monday opening window. -/
def exampleConfig : RestaurantConfig :=
  { name := "T"
    whatsapp_number := "5511999"
    delivery_fee := 5
    opening_hours := [("monday", "22:00-02:00"), ("tuesday", ""), ("sunday", "closed"),
                      ("friday", "10:00-22:00")]
    menu := [("pizzas", [{ id := "pizza-margherita", name := "Pizza Margherita",
                           price := 30, description := "boa" }]),
             ("bebidas", [{ id := "coca", name := "Coca Cola", price := 8, description := "" }])]
    promotions := [{ trigger := "pizza-margherita", suggest := "coca",
                     message := "Leve uma coca!" }] }

/-- A moment at which `exampleConfig` is open (Friday noon), so replies
carry no closed notice. -/
def openNow : Now := ⟨"friday", 12 * 3600⟩

/-- Two catalog items with identical significant tokens in different
orders: both score 2 on the utterance "margherita especial", neither id nor
full name occurs as a substring. -/
def tieItemA : IndexedItem :=
  { item := { id := "pA", name := "Pizza Margherita Especial", price := 30, description := "" }
    category := "pizzas"
    id_norm := normalize_text "pA"
    name_norm := normalize_text "Pizza Margherita Especial"
    tokens := (tokenize "Pizza Margherita Especial").filter (· ∉ GENERIC_ITEM_TOKENS) }

def tieItemB : IndexedItem :=
  { item := { id := "pB", name := "Pizza Especial Margherita", price := 32, description := "" }
    category := "pizzas"
    id_norm := normalize_text "pB"
    name_norm := normalize_text "Pizza Especial Margherita"
    tokens := (tokenize "Pizza Especial Margherita").filter (· ∉ GENERIC_ITEM_TOKENS) }

/-- A catalog with a single item of price 10 and delivery fee 5. -/
def c1Config : RestaurantConfig :=
  { name := "X", whatsapp_number := "1", delivery_fee := 5, opening_hours := [],
    menu := [("m", [{ id := "a", name := "A", price := 10, description := "" }])],
    promotions := [] }

/-- A resolvable cart entry whose stored quantity is 0. -/
def c1Entry : CartEntry := { id := some "a", quantity := some 0, qty := none }

/-- One pizza in the cart. -/
def margheritaEntry : CartEntry :=
  { id := some "pizza-margherita", quantity := some 1, qty := none }

/-- A canonical state sitting in the CONFIRMATION step with a non-empty
cart. -/
def confirmationState : ConvState :=
  { step := some "confirmation", cart := some [margheritaEntry], customer_info := some {} }

/-- AWAITING_ADDRESS with a pending finalize, a stored name and an invalid
stored phone (3 digits). -/
def awaitingAddressPhoneState : ConvState :=
  { step := some "awaiting_address", cart := some [margheritaEntry],
    customer_info := some { name := some "Joao", phone := some "123" },
    pending_confirmation := some true }

/-- CONFIRMATION with complete customer info except an invalid stored
phone. -/
def confirmationPhoneState : ConvState :=
  { step := some "confirmation", cart := some [margheritaEntry],
    customer_info := some { name := some "Joao", address := some "Rua A, 123",
                            phone := some "123" } }

/-- A canonical empty ORDERING state. -/
def orderingEmptyState : ConvState :=
  { step := some "ordering", cart := some [], customer_info := some {} }

end Restaurant

namespace Restaurant

/-! ## Supporting lemmas -/

theorem calculate_total_loop (config : RestaurantConfig) :
    ∀ (cart : List CartEntry) (acc : ℚ),
      cart.foldl
        (fun total e =>
          if ¬ truthyId e then total
          else
            match find_menu_item config ((e.id).getD "") with
            | none => total
            | some item => total + item.price * ((max (rawQty e) 1 : Int) : ℚ))
        acc
      = acc + (cart.map (resolvedLineValue config)).sum := by
  intro cart
  induction cart with
  | nil => intro acc; simp
  | cons e rest ih =>
    intro acc
    rw [List.foldl_cons, ih, List.map_cons, List.sum_cons]
    have hbody :
        (if ¬ truthyId e then acc
         else
          match find_menu_item config ((e.id).getD "") with
          | none => acc
          | some item => acc + item.price * ((max (rawQty e) 1 : Int) : ℚ))
        = acc + resolvedLineValue config e := by
      unfold resolvedLineValue
      cases htr : truthyId e
      · simp
      · simp only [htr, Bool.not_true, Bool.false_eq_true, if_false, if_true]
        cases find_menu_item config ((e.id).getD "") <;> simp
    rw [hbody]
    ring

theorem cart_add_go_of_not_mem (item_id : String) (q : Int) :
    ∀ cart : List CartEntry, (∀ e ∈ cart, e.id ≠ some item_id) →
      cart_add_go item_id q cart =
        cart ++ [{ id := some item_id, quantity := some q, qty := none }] := by
  intro cart
  induction cart with
  | nil => intro _; rfl
  | cons e rest ih =>
    intro h
    have he : e.id ≠ some item_id := h e (List.mem_cons_self e rest)
    simp only [cart_add_go, if_neg he, List.cons_append, List.cons.injEq, true_and]
    exact ih fun x hx => h x (List.mem_cons_of_mem e hx)

theorem cart_add_go_increment (item_id : String) (q : Int) :
    ∀ (pre : List CartEntry) (e : CartEntry) (post : List CartEntry),
      (∀ x ∈ pre, x.id ≠ some item_id) → e.id = some item_id →
      cart_add_go item_id q (pre ++ e :: post) =
        pre ++ { e with quantity := some ((e.quantity).getD 1 + q) } :: post := by
  intro pre
  induction pre with
  | nil =>
    intro e post _ he
    simp only [List.nil_append, cart_add_go, if_pos he]
  | cons x rest ih =>
    intro e post h he
    have hx : x.id ≠ some item_id := h x (List.mem_cons_self x rest)
    simp only [List.cons_append, cart_add_go, if_neg hx, List.cons.injEq, true_and]
    exact ih e post (fun y hy => h y (List.mem_cons_of_mem x hy)) he

/-! ## Claims -/

/-- C1 counterexample: `calculate_total` clamps each entry's quantity to
≥ 1, so a resolvable entry with stored quantity 0 contributes its full unit
price, while the claim's formula `price × quantity` contributes 0: on a
one-entry cart with quantity 0 the code yields 15 (price 10 × 1 + fee 5),
the claimed sum yields 5. -/
theorem c1_total_counterexample :
    calculate_total [c1Entry] c1Config = 15 ∧
    spec_total_unclamped [c1Entry] c1Config = 5 ∧
    (15 : ℚ) ≠ 5 := by
  refine ⟨?_, ?_, by norm_num⟩
  · unfold calculate_total
    rw [calculate_total_loop]
    simp only [List.map_cons, List.map_nil, List.sum_cons, List.sum_nil]
    have h : resolvedLineValue c1Config c1Entry = (10 : ℚ) * ((1 : Int) : ℚ) := rfl
    rw [h]
    show (0 : ℚ) + ((10 : ℚ) * ((1 : Int) : ℚ) + 0) + c1Config.delivery_fee = 15
    norm_num [c1Config]
  · unfold spec_total_unclamped
    simp only [List.map_cons, List.map_nil, List.sum_cons, List.sum_nil]
    have h :
        (match c1Entry.id with
          | none => (0 : ℚ)
          | some id =>
            match find_menu_item c1Config id with
            | none => 0
            | some item => item.price * ((rawQty c1Entry : Int) : ℚ))
        = (10 : ℚ) * ((0 : Int) : ℚ) := rfl
    rw [h]
    show (10 : ℚ) * ((0 : Int) : ℚ) + 0 + c1Config.delivery_fee = 5
    norm_num [c1Config]

/-- C1 (amended): for every cart list and catalog, `calculate_total`
equals the sum over exactly those cart entries with a non-empty id that
resolves in the catalog of `item.price × max(quantity, 1)` — the stored
quantity clamped to ≥ 1 — plus the catalog's flat delivery fee; entries
with ids absent from the catalog contribute nothing, and the empty cart
yields the delivery fee alone. -/
theorem c1_total_amended (cart : List CartEntry) (config : RestaurantConfig) :
    calculate_total cart config
      = (cart.map (resolvedLineValue config)).sum + config.delivery_fee ∧
    calculate_total [] config = config.delivery_fee := by
  constructor
  · unfold calculate_total
    rw [calculate_total_loop]
    ring
  · unfold calculate_total
    simp

/-- C2: for quantities q ≥ 1, adding the same item twice to a cart with no
entry for that id produces one entry with quantity 2q appended at the end
(insertion order preserved), because `add` increments the quantity of an
existing entry with the same id and only appends a new entry when none
exists. -/
theorem c2_cart_add_merges (item_id : String) (q : Int) (hq : 1 ≤ q) :
    (∀ cart : List CartEntry, (∀ e ∈ cart, e.id ≠ some item_id) →
      cart_add (cart_add cart item_id q) item_id q =
        cart ++ [{ id := some item_id, quantity := some (2 * q), qty := none }]) ∧
    (∀ (pre : List CartEntry) (e : CartEntry) (post : List CartEntry),
      (∀ x ∈ pre, x.id ≠ some item_id) → e.id = some item_id →
      cart_add (pre ++ e :: post) item_id q =
        pre ++ { e with quantity := some ((e.quantity).getD 1 + q) } :: post) ∧
    (∀ cart : List CartEntry, (∀ e ∈ cart, e.id ≠ some item_id) →
      cart_add cart item_id q =
        cart ++ [{ id := some item_id, quantity := some q, qty := none }]) := by
  have hmax : max q 1 = q := by omega
  refine ⟨?_, ?_, ?_⟩
  · intro cart h
    unfold cart_add
    rw [hmax, cart_add_go_of_not_mem item_id q cart h,
        cart_add_go_increment item_id q cart _ [] h rfl]
    simp only [Option.getD_some]
    norm_num
    ring_nf
  · intro pre e post h he
    unfold cart_add
    rw [hmax]
    exact cart_add_go_increment item_id q pre e post h he
  · intro cart h
    unfold cart_add
    rw [hmax]
    exact cart_add_go_of_not_mem item_id q cart h

/-- C2 witness: adding "a" twice with quantity 2 to the empty cart gives a
single entry of quantity 4. -/
theorem c2_cart_add_merges_witness :
    cart_add (cart_add [] "a" 2) "a" 2 =
      [] ++ [{ id := some "a", quantity := some (2 * 2), qty := none }] :=
  (c2_cart_add_merges "a" 2 (by norm_num)).1 [] (by simp)

/-- C8: the opening-hours check treats an interval with end ≤ start as
crossing midnight (open iff t ≥ start or t < end), inherits the
early-morning portion of yesterday's crossing window, treats the literals
"closed"/"fechado" (case-insensitively, after stripping) and the empty
string as closed for that day, and on the window "22:00-02:00" reports
open at 23:30 and at 01:00 (both on the same day and, for 01:00, inherited
on the next day) and closed at 03:00. -/
theorem c8_opening_hours :
    (∀ (hours : String) (t : TimeOfDay),
      (hoursNormalized hours = "" ∨ hoursNormalized hours = "closed" ∨
        hoursNormalized hours = "fechado") →
      is_open_for_hours hours t = false) ∧
    (∀ s e t : TimeOfDay, e ≤ s →
      intervalOpen t (s, e) = (decide (s ≤ t) || decide (t < e))) ∧
    (∀ (hours : String) (t : TimeOfDay),
      is_open_from_prev_day hours t =
        (parse_intervals hours).any fun iv => decide (iv.2 ≤ iv.1) && decide (t < iv.2)) ∧
    is_open exampleConfig ⟨"monday", 23 * 3600 + 30 * 60⟩ = true ∧
    is_open exampleConfig ⟨"monday", 1 * 3600⟩ = true ∧
    is_open exampleConfig ⟨"tuesday", 1 * 3600⟩ = true ∧
    is_open exampleConfig ⟨"monday", 3 * 3600⟩ = false ∧
    is_open exampleConfig ⟨"tuesday", 3 * 3600⟩ = false := by
  refine ⟨?_, ?_, ?_, by decide, by decide, by decide, by decide, by decide⟩
  · intro hours t h
    unfold is_open_for_hours
    rcases h with h | h | h <;> simp [h]
  · intro s e t h
    simp [intervalOpen, h]
  · intro hours t
    by_cases h : hours = ""
    · subst h
      rw [show parse_intervals "" = [] from rfl]
      simp [is_open_from_prev_day]
    · simp [is_open_from_prev_day, h]

/-- C8 witness: the closed-literal rule applied at "fechado", and the
midnight-crossing rule applied at the window (22:00, 02:00). -/
theorem c8_opening_hours_witness :
    is_open_for_hours "fechado" 0 = false ∧
    intervalOpen 84600 (79200, 7200) = (decide ((79200 : Nat) ≤ 84600) || decide (84600 < 7200)) :=
  ⟨c8_opening_hours.1 "fechado" 0 (Or.inr (Or.inr (by decide))),
   c8_opening_hours.2.1 79200 7200 84600 (by decide)⟩

/-- Soundness invariant of the token-overlap loop: a returned item either
was the incoming best (and nothing in the remaining list could beat the
incoming score), or sits in the list, qualifies, beats the incoming score,
strictly beats every qualifying item before it and is not beaten by any
qualifying item after it. -/
theorem matchTokenLoop_sound (toks : List String) :
    ∀ (l : List IndexedItem) (bs : Nat) (best : Option IndexedItem) (it : IndexedItem),
      matchTokenLoop toks l bs best = some it →
      (best = some it ∧ ∀ j ∈ l, tierQualifies toks j → matchScore toks j ≤ bs) ∨
      (∃ pre post, l = pre ++ it :: post ∧ tierQualifies toks it ∧
        bs < matchScore toks it ∧
        (∀ j ∈ pre, tierQualifies toks j → matchScore toks j < matchScore toks it) ∧
        (∀ j ∈ post, tierQualifies toks j → matchScore toks j ≤ matchScore toks it)) := by
  intro l
  induction l with
  | nil =>
    intro bs best it h
    exact Or.inl ⟨h, by simp⟩
  | cons i rest ih =>
    intro bs best it h
    simp only [matchTokenLoop] at h
    by_cases hemp : i.tokens.isEmpty
    · rw [if_pos hemp] at h
      have htok : i.tokens = [] := List.isEmpty_iff.mp hemp
      rcases ih bs best it h with ⟨hb, hall⟩ | ⟨pre, post, hl, hq, hbs, hpre, hpost⟩
      · refine Or.inl ⟨hb, ?_⟩
        intro j hj hqj
        rcases List.mem_cons.mp hj with rfl | hj'
        · exact absurd htok hqj.1
        · exact hall j hj' hqj
      · refine Or.inr ⟨i :: pre, post, by rw [hl]; rfl, hq, hbs, ?_, hpost⟩
        intro j hj hqj
        rcases List.mem_cons.mp hj with rfl | hj'
        · exact absurd htok hqj.1
        · exact hpre j hj' hqj
    · rw [if_neg hemp] at h
      have htok : i.tokens ≠ [] := fun hnil => hemp (by simp [hnil])
      by_cases hupd :
          matchScore toks i ≥ max 1 (min 2 i.tokens.length) ∧ matchScore toks i > bs
      · rw [if_pos hupd] at h
        rcases ih _ _ _ h with ⟨hb, hall⟩ | ⟨pre, post, hl, hq, hbs, hpre, hpost⟩
        · obtain rfl : i = it := Option.some.inj hb
          refine Or.inr ⟨[], rest, rfl, ⟨htok, hupd.1⟩, hupd.2, by simp, ?_⟩
          intro j hj hqj
          exact hall j hj hqj
        · refine Or.inr ⟨i :: pre, post, by rw [hl]; rfl, hq, lt_trans hupd.2 hbs, ?_, hpost⟩
          intro j hj hqj
          rcases List.mem_cons.mp hj with rfl | hj'
          · exact hbs
          · exact hpre j hj' hqj
      · rw [if_neg hupd] at h
        have hle : tierQualifies toks i → matchScore toks i ≤ bs := by
          intro hqi
          by_contra hgt
          exact hupd ⟨hqi.2, by omega⟩
        rcases ih bs best it h with ⟨hb, hall⟩ | ⟨pre, post, hl, hq, hbs, hpre, hpost⟩
        · refine Or.inl ⟨hb, ?_⟩
          intro j hj hqj
          rcases List.mem_cons.mp hj with rfl | hj'
          · exact hle hqj
          · exact hall j hj' hqj
        · refine Or.inr ⟨i :: pre, post, by rw [hl]; rfl, hq, hbs, ?_, hpost⟩
          intro j hj hqj
          rcases List.mem_cons.mp hj with rfl | hj'
          · exact lt_of_le_of_lt (hle hqj) hbs
          · exact hpre j hj' hqj

/-- C3 counterexample: two catalog items whose fuzzy-match counts on the
utterance "margherita especial" tie at 2 (each meeting its threshold), yet
the token-overlap tier does match an item — the first of the two — so a tie
for the highest count does not yield "no match", and the returned item's
count is not strictly greater than every other item's. -/
theorem c3_match_tie_counterexample :
    matchScore (tokenize "margherita especial") tieItemA = 2 ∧
    matchScore (tokenize "margherita especial") tieItemB = 2 ∧
    tieItemA.item.id ≠ tieItemB.item.id ∧
    (match_item "margherita especial" [tieItemA, tieItemB]).map (fun i => i.item.id)
      = some "pA" := by
  refine ⟨by decide, by decide, by decide, by decide⟩

/-- C3 (amended): in the token-overlap tier, an item is returned only if
its count of fuzzily-matching utterance tokens is at least
`max 1 (min 2 #tokens)` (which equals `min 2 #tokens` for the indexed items
considered, all of which have non-empty significant tokens), is strictly
greater than the count of every earlier qualifying item, and is at least
the count of every later qualifying item — so when several items tie for
the highest count, the earliest of them in the index is matched rather
than none. -/
theorem c3_token_tier_amended (toks : List String) (items : List IndexedItem)
    (it : IndexedItem) (h : matchTokenLoop toks items 0 none = some it) :
    ∃ pre post, items = pre ++ it :: post ∧
      it.tokens ≠ [] ∧
      max 1 (min 2 it.tokens.length) ≤ matchScore toks it ∧
      (∀ j ∈ pre, tierQualifies toks j → matchScore toks j < matchScore toks it) ∧
      (∀ j ∈ post, tierQualifies toks j → matchScore toks j ≤ matchScore toks it) := by
  rcases matchTokenLoop_sound toks items 0 none it h with ⟨hb, _⟩ | ⟨pre, post, hl, hq, _, hpre, hpost⟩
  · exact absurd hb (by simp)
  · exact ⟨pre, post, hl, hq.1, hq.2, hpre, hpost⟩

/-- C3 witness: the amended characterization applied to the tie example,
where the returned item is the first of the two tied items. -/
theorem c3_token_tier_amended_witness :
    ∃ pre post, [tieItemA, tieItemB] = pre ++ tieItemA :: post ∧
      tieItemA.tokens ≠ [] ∧
      max 1 (min 2 tieItemA.tokens.length) ≤ matchScore (tokenize "margherita especial") tieItemA ∧
      (∀ j ∈ pre, tierQualifies (tokenize "margherita especial") j →
        matchScore (tokenize "margherita especial") j <
          matchScore (tokenize "margherita especial") tieItemA) ∧
      (∀ j ∈ post, tierQualifies (tokenize "margherita especial") j →
        matchScore (tokenize "margherita especial") j ≤
          matchScore (tokenize "margherita especial") tieItemA) :=
  c3_token_tier_amended (tokenize "margherita especial") [tieItemA, tieItemB] tieItemA rfl

/-- C7: the code contradicts its own `NUMBER_WORDS` table.  The claim (and
the table) say "duas pizzas margherita" yields quantity 2, but
`_quantity_from_tokens` singularizes "duas" to "dua" before looking it up,
so the number words "dois"/"duas"/"tres"/"seis" are unreachable and the
extraction falls through to the default 1.  The digit path and the default
behave as claimed. -/
theorem capture_iff (msg : String) :
    (msg ≠ "" ∧ looks_like_phone msg = true) ↔
      (10 ≤ (digitsOf msg).length ∧ (digitsOf msg).length ≤ 13) := by
  constructor
  · rintro ⟨-, hl⟩
    simpa [looks_like_phone] using hl
  · rintro ⟨h10, h13⟩
    refine ⟨?_, by simp [looks_like_phone, h10, h13]⟩
    intro he
    subst he
    simp [digitsOf, String.length] at h10

theorem coerce_step_of_value (st : ConvState) (s : Step) (h : st.step = some s.value) :
    coerce_step st = s := by
  cases s <;> simp [coerce_step, h, truthyStr, Step.value, stepOfValue]

/-- C4 counterexample: in the CONFIRMATION step a message recognized as the
show-menu intent is answered with the confirm-or-edit instruction text, not
the menu listing (the step itself is indeed unchanged). -/
theorem c4_confirmation_menu_counterexample :
    (parse_intent "menu" (build_item_index exampleConfig)).type = IntentType.show_menu ∧
    (process_message exampleConfig openNow "menu" confirmationState).text
      = CONFIRMATION_INSTRUCTION_TEXT ∧
    (process_message exampleConfig openNow "menu" confirmationState).text
      ≠ menu_text exampleConfig ∧
    (process_message exampleConfig openNow "menu" confirmationState).state.step
      = some "confirmation" := by
  refine ⟨by decide, by decide, by decide, by decide⟩

/-- C4 (amended): a message recognized as show-menu or show-promotions
produces the menu/promotion listing text with the step unchanged in the
ORDERING, AWAITING_NAME and AWAITING_ADDRESS steps (in the awaiting steps
with the missing-info reminder appended) — but in the CONFIRMATION step
these intents fall through to the confirm-or-edit instruction reply, also
leaving the step unchanged. -/
theorem c4_show_listing_amended (config : RestaurantConfig) (now : Now) (st : ConvState)
    (msg : String) (s : String) (hs : st.step = some s)
    (hint : (parse_intent msg (build_item_index config)).type = IntentType.show_menu ∨
      (parse_intent msg (build_item_index config)).type = IntentType.show_promos) :
    (s = "ordering" →
      handle_message config now msg st =
        { text := response_with_notice (closed_notice config now)
            (if (parse_intent msg (build_item_index config)).type = IntentType.show_menu
             then menu_text config else promos_text config)
          state := canonicalize st
          link := none }) ∧
    (s = "confirmation" →
      handle_message config now msg st =
        { text := response_with_notice (closed_notice config now) CONFIRMATION_INSTRUCTION_TEXT
          state := canonicalize st
          link := none }) ∧
    ((s = "awaiting_name" ∨ s = "awaiting_address") →
      handle_message config now msg st =
        { text := response_with_notice (closed_notice config now)
            (if (parse_intent msg (build_item_index config)).type = IntentType.show_menu
             then menu_text config else promos_text config)
            ++ "\n\n" ++ missing_info_prompt ((st.customer_info).getD {})
          state := canonicalize st
          link := none }) ∧
    ((s = "ordering" ∨ s = "confirmation" ∨ s = "awaiting_name" ∨ s = "awaiting_address") →
      (canonicalize st).step = some s) := by
  refine ⟨?_, ?_, ?_, ?_⟩
  · intro hs'
    subst hs'
    have hstep : coerce_step st = .ordering := coerce_step_of_value st .ordering hs
    unfold handle_message
    rcases hint with h | h <;>
      simp [hstep, handle_general, h, build_response]
  · intro hs'
    subst hs'
    have hstep : coerce_step st = .confirmation := coerce_step_of_value st .confirmation hs
    unfold handle_message
    rcases hint with h | h <;>
      simp [hstep, handle_confirmation, h, build_response]
  · intro hs'
    rcases hs' with hs' | hs' <;> subst hs'
    · have hstep : coerce_step st = .awaiting_name := coerce_step_of_value st .awaiting_name hs
      unfold handle_message
      rcases hint with h | h <;>
        simp [hstep, handle_customer_info, handle_general, h, build_response, canonCI,
          canonicalize]
    · have hstep : coerce_step st = .awaiting_address :=
        coerce_step_of_value st .awaiting_address hs
      unfold handle_message
      rcases hint with h | h <;>
        simp [hstep, handle_customer_info, handle_general, h, build_response, canonCI,
          canonicalize]
  · intro hs'
    rcases hs' with hs' | hs' | hs' | hs' <;> subst hs' <;>
      simp [canonicalize, coerce_step, hs, truthyStr, stepOfValue, Step.value]

/-- C4 witness: "menu" in the CONFIRMATION step yields the instruction
reply with the step unchanged. -/
theorem c4_show_listing_amended_witness :
    handle_message exampleConfig openNow "menu" confirmationState =
      { text := response_with_notice (closed_notice exampleConfig openNow)
          CONFIRMATION_INSTRUCTION_TEXT
        state := canonicalize confirmationState
        link := none } :=
  (c4_show_listing_amended exampleConfig openNow confirmationState "menu" "confirmation" rfl
    (Or.inl (by decide))).2.1 rfl

theorem handle_general_ci (config : RestaurantConfig) (idx : List IndexedItem)
    (notice : Option String) (st : ConvState) (intent : Intent) :
    (handle_general config idx notice st intent).state.customer_info = st.customer_info := by
  unfold handle_general build_response setCart setStep
  dsimp only
  split_ifs <;> rfl

theorem finalize_order_ci (config : RestaurantConfig) (notice : Option String)
    (st : ConvState) :
    (finalize_order config notice st).state.customer_info = st.customer_info := by
  unfold finalize_order build_response setStep setPending popPending
  dsimp only
  split_ifs <;> rfl

theorem handle_confirmation_ci (config : RestaurantConfig) (idx : List IndexedItem)
    (notice : Option String) (st : ConvState) (intent : Intent) :
    (handle_confirmation config idx notice st intent).state.customer_info
      = st.customer_info := by
  unfold handle_confirmation
  split_ifs
  · exact finalize_order_ci config notice st
  · rfl
  · exact handle_general_ci config idx notice st intent
  · rfl

theorem handle_customer_info_phone (config : RestaurantConfig) (idx : List IndexedItem)
    (notice : Option String) (step : Step) (st : ConvState) (intent : Intent)
    (msg : String) (ci : CustomerInfo) (h : st.customer_info = some ci) :
    ∃ ci', (handle_customer_info config idx notice step st intent msg).state.customer_info
        = some ci' ∧ ci'.phone = ci.phone := by
  have hcanon : canonCI st = ci := by simp [canonCI, h]
  unfold handle_customer_info
  dsimp only
  split_ifs
  · exact ⟨ci, by rw [handle_general_ci]; exact h, rfl⟩
  · exact ⟨ci, h, rfl⟩
  · exact ⟨_, rfl, by simp [hcanon]⟩
  · exact ⟨ci, h, rfl⟩
  · refine ⟨{ canonCI st with
        address := some (match extract_address msg with
          | some a => if a ≠ "" then a else pyStrip msg
          | none => pyStrip msg) }, ?_, by simp [hcanon]⟩
    rw [finalize_order_ci]
    rfl
  · exact ⟨_, rfl, by simp [hcanon]⟩
  · exact ⟨ci, h, rfl⟩

theorem handle_message_phone (config : RestaurantConfig) (now : Now) (msg : String)
    (st : ConvState) :
    ∃ ci', (handle_message config now msg st).state.customer_info = some ci' ∧
      ci'.phone = ((st.customer_info).getD {}).phone := by
  have hci : (canonicalize st).customer_info = some ((st.customer_info).getD {}) := rfl
  unfold handle_message
  dsimp only
  split_ifs
  · exact handle_customer_info_phone config (build_item_index config)
      (closed_notice config now) (coerce_step st) (canonicalize st)
      (parse_intent msg (build_item_index config)) msg ((st.customer_info).getD {}) hci
  · exact ⟨(st.customer_info).getD {}, by rw [handle_confirmation_ci]; exact hci, rfl⟩
  · exact ⟨(st.customer_info).getD {}, by rw [handle_general_ci]; exact hci, rfl⟩

theorem setStep_canonical (st : ConvState) (s : Step) (h : stateCanonical st) :
    stateCanonical (setStep st s) := by
  obtain ⟨-, h2, h3, h4, h5, h6⟩ := h
  cases s <;>
    exact ⟨by simp [setStep, Step.value], by simpa [setStep] using h2,
      by simpa [setStep] using h3, by simpa [setStep] using h4,
      by simpa [setStep] using h5, by simpa [setStep] using h6⟩

theorem setCart_canonical (st : ConvState) (cart : List CartEntry) (h : stateCanonical st) :
    stateCanonical (setCart st cart) := by
  obtain ⟨h1, -, h3, h4, h5, h6⟩ := h
  exact ⟨by simpa [setCart] using h1, by simp [setCart], by simpa [setCart] using h3,
    by simpa [setCart] using h4, by simpa [setCart] using h5, by simpa [setCart] using h6⟩

theorem setCI_canonical (st : ConvState) (ci : CustomerInfo) (h : stateCanonical st) :
    stateCanonical (setCI st ci) := by
  obtain ⟨h1, h2, -, h4, h5, h6⟩ := h
  exact ⟨by simpa [setCI] using h1, by simpa [setCI] using h2, by simp [setCI],
    by simpa [setCI] using h4, by simpa [setCI] using h5, by simpa [setCI] using h6⟩

theorem setPending_canonical (st : ConvState) (h : stateCanonical st) :
    stateCanonical (setPending st) := by
  obtain ⟨h1, h2, h3, h4, h5, h6⟩ := h
  exact ⟨by simpa [setPending] using h1, by simpa [setPending] using h2,
    by simpa [setPending] using h3, by simpa [setPending] using h4,
    by simpa [setPending] using h5, by simpa [setPending] using h6⟩

theorem popPending_canonical (st : ConvState) (h : stateCanonical st) :
    stateCanonical (popPending st) := by
  obtain ⟨h1, h2, h3, h4, h5, h6⟩ := h
  exact ⟨by simpa [popPending] using h1, by simpa [popPending] using h2,
    by simpa [popPending] using h3, by simpa [popPending] using h4,
    by simpa [popPending] using h5, by simpa [popPending] using h6⟩

theorem canonicalize_canonical (st : ConvState) : stateCanonical (canonicalize st) := by
  have hval : ∀ s : Step,
      (some s.value = some "ordering" ∨ some s.value = some "confirmation" ∨
        some s.value = some "awaiting_name" ∨ some s.value = some "awaiting_address") := by
    intro s
    cases s <;> simp [Step.value]
  exact ⟨hval (coerce_step st), rfl, rfl, rfl, rfl, rfl⟩

theorem handle_general_canonical (config : RestaurantConfig) (idx : List IndexedItem)
    (notice : Option String) (st : ConvState) (intent : Intent) (h : stateCanonical st) :
    stateCanonical (handle_general config idx notice st intent).state := by
  unfold handle_general build_response
  dsimp only
  split_ifs <;>
    first
    | exact h
    | exact setCart_canonical st _ h
    | exact setStep_canonical st _ h
    | exact setStep_canonical (setCart st _) _ (setCart_canonical st _ h)

theorem finalize_order_canonical (config : RestaurantConfig) (notice : Option String)
    (st : ConvState) (h : stateCanonical st) :
    stateCanonical (finalize_order config notice st).state := by
  unfold finalize_order build_response
  dsimp only
  split_ifs <;>
    first
    | exact h
    | exact setStep_canonical st _ h
    | exact setPending_canonical _ (setStep_canonical st _ h)
    | exact popPending_canonical _ (setStep_canonical st _ h)

theorem handle_confirmation_canonical (config : RestaurantConfig) (idx : List IndexedItem)
    (notice : Option String) (st : ConvState) (intent : Intent) (h : stateCanonical st) :
    stateCanonical (handle_confirmation config idx notice st intent).state := by
  unfold handle_confirmation
  split_ifs
  · exact finalize_order_canonical config notice st h
  · exact setStep_canonical st _ h
  · exact handle_general_canonical config idx notice st intent h
  · exact h

theorem handle_customer_info_canonical (config : RestaurantConfig)
    (idx : List IndexedItem) (notice : Option String) (step : Step) (st : ConvState)
    (intent : Intent) (msg : String) (h : stateCanonical st) :
    stateCanonical (handle_customer_info config idx notice step st intent msg).state := by
  unfold handle_customer_info
  dsimp only
  split_ifs
  · exact handle_general_canonical config idx notice st intent h
  · exact h
  · exact setStep_canonical _ _ (setCI_canonical st _ h)
  · exact h
  · exact finalize_order_canonical config notice _
      (popPending_canonical _ (setStep_canonical _ _ (setCI_canonical st _ h)))
  · exact setStep_canonical _ _ (setCI_canonical st _ h)
  · exact h

theorem handle_message_canonical (config : RestaurantConfig) (now : Now) (msg : String)
    (st : ConvState) : stateCanonical (handle_message config now msg st).state := by
  unfold handle_message
  dsimp only
  split_ifs
  · exact handle_customer_info_canonical _ _ _ _ _ _ _ (canonicalize_canonical st)
  · exact handle_confirmation_canonical _ _ _ _ _ (canonicalize_canonical st)
  · exact handle_general_canonical _ _ _ _ _ (canonicalize_canonical st)

/-- C9: on every call to `process_message`, in every step and regardless of
the recognized intent, the resulting phone field equals the message's digit
string when the message holds 10..13 digit characters, and the prior stored
phone otherwise — the capture happens before handling and no handler ever
writes the phone field, so this is the only way a phone enters the state. -/
theorem c9_phone_capture (config : RestaurantConfig) (now : Now) (msg : String)
    (st : ConvState) :
    ∃ ci', (process_message config now msg st).state.customer_info = some ci' ∧
      ci'.phone = (if 10 ≤ (digitsOf msg).length ∧ (digitsOf msg).length ≤ 13
        then some (digitsOf msg)
        else ((st.customer_info).getD {}).phone) := by
  unfold process_message
  by_cases hc : msg ≠ "" ∧ looks_like_phone msg = true
  · have hd := (capture_iff msg).mp hc
    have hn : normalize_phone msg = some (digitsOf msg) := by
      unfold normalize_phone
      rw [if_pos hd]
    rw [if_pos hc]
    simp only [hn]
    obtain ⟨ci', h1, h2⟩ := handle_message_phone config now msg
      { st with customer_info := some { (st.customer_info).getD {} with phone := some (digitsOf msg) } }
    refine ⟨ci', h1, ?_⟩
    rw [h2, if_pos hd]
    simp
  · rw [if_neg hc]
    obtain ⟨ci', h1, h2⟩ := handle_message_phone config now msg st
    refine ⟨ci', h1, ?_⟩
    rw [h2, if_neg (fun hd => hc ((capture_iff msg).mpr hd))]

/-- C10: after every call to `process_message` the returned state is
canonical — the step key holds one of the four enum strings, the legacy
keys `awaiting_confirmation`/`awaiting_info`/`confirmed` are absent, the
cart and customer-info keys are present — and re-coercing the returned
state reproduces the same step. -/
theorem c10_state_canonical (config : RestaurantConfig) (now : Now) (msg : String)
    (st : ConvState) :
    ((process_message config now msg st).state.step = some "ordering" ∨
      (process_message config now msg st).state.step = some "confirmation" ∨
      (process_message config now msg st).state.step = some "awaiting_name" ∨
      (process_message config now msg st).state.step = some "awaiting_address") ∧
    ((process_message config now msg st).state.cart).isSome = true ∧
    ((process_message config now msg st).state.customer_info).isSome = true ∧
    (process_message config now msg st).state.awaiting_confirmation = none ∧
    (process_message config now msg st).state.awaiting_info = none ∧
    (process_message config now msg st).state.confirmed = none ∧
    (∀ s : String, (process_message config now msg st).state.step = some s →
      (coerce_step (process_message config now msg st).state).value = s) := by
  have hcanon : stateCanonical (process_message config now msg st).state := by
    unfold process_message
    dsimp only
    split_ifs <;>
      first
      | exact handle_message_canonical config now msg _
      | (rename_i hsome
         cases hck : normalize_phone msg <;> simp only [hck] <;>
           exact handle_message_canonical config now msg _)
  obtain ⟨h1, h2, h3, h4, h5, h6⟩ := hcanon
  refine ⟨h1, h2, h3, h4, h5, h6, ?_⟩
  intro s hs
  rcases h1 with h | h | h | h <;> rw [h] at hs <;> cases hs <;>
    simp [coerce_step, h, truthyStr, stepOfValue, Step.value]

/-- C5 counterexample: finalize attempted automatically after address
collection (finalize pending, non-empty cart, name present, stored phone
"123") re-prompts for the phone and produces no link, but leaves the
conversation in step "ordering", not "confirmation". -/
theorem c5_address_path_counterexample :
    (process_message exampleConfig openNow "Rua A, 123" awaitingAddressPhoneState).text
      = PHONE_REPROMPT_TEXT ∧
    (process_message exampleConfig openNow "Rua A, 123" awaitingAddressPhoneState).link
      = none ∧
    (process_message exampleConfig openNow "Rua A, 123" awaitingAddressPhoneState).state.step
      = some "ordering" ∧
    (some "ordering" : Option String) ≠ some "confirmation" := by
  refine ⟨by decide, by decide, by decide, by decide⟩

/-- C5 (amended): with a non-empty cart, name and address present and a
stored non-empty phone whose digit count is outside 10..13, the finalize
procedure re-prompts for the phone and produces no handoff link on both
paths; via confirm in CONFIRMATION the conversation remains in step
CONFIRMATION, but via the automatic re-finalize after address collection
the step has already been reset to ORDERING (and the pending flag popped)
before finalize runs, so the conversation ends the turn in ORDERING. -/
theorem c5_invalid_phone_amended (config : RestaurantConfig) (now : Now) :
    (∀ (msg : String) (st : ConvState) (p : String),
      st.step = some "confirmation" →
      cart_has_items ((st.cart).getD []) = true →
      truthyStr (((st.customer_info).getD {}).name) = true →
      truthyStr (((st.customer_info).getD {}).address) = true →
      ((st.customer_info).getD {}).phone = some p →
      p ≠ "" →
      normalize_phone p = none →
      (parse_intent msg (build_item_index config)).type = IntentType.confirm →
      ¬ (10 ≤ (digitsOf msg).length ∧ (digitsOf msg).length ≤ 13) →
      process_message config now msg st =
        { text := response_with_notice (closed_notice config now) PHONE_REPROMPT_TEXT
          state := canonicalize st
          link := none } ∧
      (canonicalize st).step = some "confirmation") ∧
    (∀ (msg : String) (st : ConvState) (p : String),
      st.step = some "awaiting_address" →
      st.pending_confirmation = some true →
      cart_has_items ((st.cart).getD []) = true →
      truthyStr (((st.customer_info).getD {}).name) = true →
      ((st.customer_info).getD {}).phone = some p →
      p ≠ "" →
      normalize_phone p = none →
      (parse_intent msg (build_item_index config)).type = IntentType.unknown →
      extract_address msg = none →
      is_valid_address (pyStrip msg) = true →
      ¬ (10 ≤ (digitsOf msg).length ∧ (digitsOf msg).length ≤ 13) →
      (process_message config now msg st).text
          = response_with_notice (closed_notice config now) PHONE_REPROMPT_TEXT ∧
      (process_message config now msg st).link = none ∧
      (process_message config now msg st).state.step = some "ordering" ∧
      (process_message config now msg st).state.pending_confirmation = none ∧
      (process_message config now msg st).state.customer_info
          = some { (st.customer_info).getD {} with address := some (pyStrip msg) }) := by
  constructor
  · intro msg st p h1 h2 h3 h4 h5 h6 h7 h8 h9
    have hcap : ¬ (msg ≠ "" ∧ looks_like_phone msg = true) := fun hc =>
      h9 ((capture_iff msg).mp hc)
    have hstep : coerce_step st = .confirmation := coerce_step_of_value st .confirmation h1
    have h6' : truthyStr (some p) = true := by simp [truthyStr, h6]
    refine ⟨?_, ?_⟩
    · unfold process_message handle_message
      rw [if_neg hcap]
      simp [hstep, handle_confirmation, h8, finalize_order, canonCart, canonCI, canonicalize,
        h2, h3, h4, h5, h6', h7, build_response]
    · simp [canonicalize, coerce_step, h1, truthyStr, stepOfValue, Step.value]
  · intro msg st p h1 h2 h3 h4 h5 h6 h7 h8 h9 h10 h11
    have hcap : ¬ (msg ≠ "" ∧ looks_like_phone msg = true) := fun hc =>
      h11 ((capture_iff msg).mp hc)
    have hstep : coerce_step st = .awaiting_address :=
      coerce_step_of_value st .awaiting_address h1
    have hne : pyStrip msg ≠ "" := by
      intro he
      rw [he] at h10
      simp [is_valid_address, pyStrip] at h10
    have h6' : truthyStr (some p) = true := by simp [truthyStr, h6]
    have haddr : truthyStr (some (pyStrip msg)) = true := by simp [truthyStr, hne]
    unfold process_message handle_message
    rw [if_neg hcap]
    simp [hstep, handle_customer_info, h8, h9, h10, finalize_order, canonCart, canonCI,
      canonicalize, setStep, setCI, setPending, popPending, h2, h3, h4, h5, h6', h7,
      build_response, haddr, truthyB, Step.value]

/-- C5 witness: confirm in CONFIRMATION with stored phone "123" re-prompts
for the phone and stays in CONFIRMATION. -/
theorem c5_invalid_phone_amended_witness :
    (process_message exampleConfig openNow "sim" confirmationPhoneState =
      { text := response_with_notice (closed_notice exampleConfig openNow) PHONE_REPROMPT_TEXT
        state := canonicalize confirmationPhoneState
        link := none } ∧
    (canonicalize confirmationPhoneState).step = some "confirmation") :=
  (c5_invalid_phone_amended exampleConfig openNow).1 "sim" confirmationPhoneState "123"
    rfl (by decide) (by decide) (by decide) rfl (by decide) (by decide) (by decide) (by decide)

/-- C6 counterexample: in the CONFIRMATION step an utterance classified as
unknown is answered with the confirm-or-edit instruction text, not the
generic help text. -/
theorem c6_unknown_counterexample :
    (parse_intent "qwert" (build_item_index exampleConfig)).type = IntentType.unknown ∧
    (process_message exampleConfig openNow "qwert" confirmationState).text
      = CONFIRMATION_INSTRUCTION_TEXT ∧
    CONFIRMATION_INSTRUCTION_TEXT ≠ GENERIC_HELP_TEXT := by
  refine ⟨by decide, by decide, by decide⟩

/-- C6 (amended): in the ORDERING step, for a canonical input state and a
message that is classified as unknown and is not phone-like, the reply is
the generic help text and the returned state equals the input state — no
field is added, removed or modified.  (In other steps the unknown intent is
handled by the step-specific handler, and non-canonical states are first
canonicalized; a phone-like message additionally stores the phone.) -/
theorem c6_unknown_amended (config : RestaurantConfig) (now : Now) (msg : String)
    (st : ConvState) (c : List CartEntry) (ci : CustomerInfo)
    (hstep : st.step = some "ordering") (hcart : st.cart = some c)
    (hci : st.customer_info = some ci)
    (hac : st.awaiting_confirmation = none) (hai : st.awaiting_info = none)
    (hcf : st.confirmed = none)
    (hint : (parse_intent msg (build_item_index config)).type = IntentType.unknown)
    (hph : ¬ (10 ≤ (digitsOf msg).length ∧ (digitsOf msg).length ≤ 13)) :
    process_message config now msg st =
      { text := response_with_notice (closed_notice config now) GENERIC_HELP_TEXT
        state := st
        link := none } := by
  have hcap : ¬ (msg ≠ "" ∧ looks_like_phone msg = true) := fun hc =>
    hph ((capture_iff msg).mp hc)
  have hstep' : coerce_step st = .ordering := coerce_step_of_value st .ordering hstep
  have hcanon : canonicalize st = st := by
    cases st
    simp_all [canonicalize, coerce_step, truthyStr, stepOfValue, Step.value]
  unfold process_message handle_message
  rw [if_neg hcap]
  simp [hstep', handle_general, hint, build_response, hcanon]

/-- C6 witness: "qwert" in a canonical empty ORDERING state yields the
generic help text and the state is returned unchanged. -/
theorem c6_unknown_amended_witness :
    process_message exampleConfig openNow "qwert" orderingEmptyState =
      { text := response_with_notice (closed_notice exampleConfig openNow) GENERIC_HELP_TEXT
        state := orderingEmptyState
        link := none } :=
  c6_unknown_amended exampleConfig openNow "qwert" orderingEmptyState [] {}
    rfl rfl rfl rfl rfl rfl (by decide) (by decide)

theorem c7_number_word_quantity_bug :
    (parse_intent "duas pizzas margherita" (build_item_index exampleConfig)).type
      = IntentType.add_item ∧
    ((parse_intent "duas pizzas margherita" (build_item_index exampleConfig)).item.map
      (fun i => i.id)) = some "pizza-margherita" ∧
    (parse_intent "duas pizzas margherita" (build_item_index exampleConfig)).quantity = 1 ∧
    (parse_intent "2 pizzas margherita" (build_item_index exampleConfig)).quantity = 2 ∧
    (parse_intent "pizza margherita" (build_item_index exampleConfig)).quantity = 1 ∧
    ("duas", 2) ∈ NUMBER_WORDS ∧
    singularize "duas" = "dua" ∧
    quantity_from_tokens ["duas"] = none := by
  refine ⟨by decide, by decide, by decide, by decide, by decide, by decide, by decide, by decide⟩

end Restaurant
